import Mathlib

/-!
Verification of the Mouse-Automation replayer (src/main.rs).

The program reads a CSV file of mouse-action rows and replays them against
the OS pointer.  We embed the dispatcher as a pure function from a decoded
row to the list of pointer-driver operations it issues, the row loop as a
fold over decode results, and the path resolver as a function over an
association-list file system.
-/

/-- Mouse buttons, mirroring `enigo::MouseButton` as used by the program. -/
inductive MButton where
  | left
  | right
  | middle
deriving DecidableEq, Repr

/-- One observable operation issued to the pointer driver or the clock.
`click` is a single press-and-release (`enigo::mouse_click`);
`press` and `release` are `mouse_down` and `mouse_up`;
`sleep` records a `thread::sleep` in milliseconds. -/
inductive MouseOp where
  | moveTo (x y : Int)
  | moveRel (x y : Int)
  | click (b : MButton)
  | press (b : MButton)
  | release (b : MButton)
  | scroll (amount : Int)
  | sleep (ms : Nat)
deriving DecidableEq, Repr

/-- One decoded CSV row, mirroring `struct MouseAction` in src/main.rs
(`i32` embedded as `Int`, `u64`/`u32` as `Nat`). -/
structure MouseAction where
  action : String
  x_position : Option Int
  y_position : Option Int
  delay_ms : Option Nat
  button : Option String
  modifiers : Option String
  repeat_count : Option Nat
deriving DecidableEq, Repr

/-- Button selection for `click` and `double_click`
(src/main.rs lines 75-79 and 90-94): `"right"` and `"middle"` are
recognized, everything else, including absent, defaults to left. -/
def selectButton (b : Option String) : MButton :=
  match b with
  | some "right" => MButton.right
  | some "middle" => MButton.middle
  | _ => MButton.left

/-- Scroll direction (src/main.rs lines 125-128): `-1` exactly when
`modifiers` is `Some("down")`, else `1`. -/
def scrollDir (m : Option String) : Int :=
  match m with
  | some "down" => -1
  | _ => 1

/-- Two complement interpretation of the low 32 bits of an integer: the
value of the Rust wrapping cast `as i32` (src/main.rs line 130) and of
wrapping 32-bit arithmetic. -/
def wrapI32 (z : Int) : Int :=
  (z + 2147483648) % 4294967296 - 2147483648

/-- One iteration of the dispatch `match` in src/main.rs lines 54-141.
`n` is the already-computed repeat count (`record.repeat_count.unwrap_or(1)`),
which the `scroll` arm reads as the scroll magnitude through the wrapping
u32-to-i32 cast `repeat_count as i32` (line 130); the i32 product
`direction * amount` (line 132) likewise wraps. -/
def actionBody (r : MouseAction) (n : Nat) : List MouseOp :=
  match r.action with
  | "move" =>
    match r.x_position, r.y_position with
    | some x, some y => [MouseOp.moveTo x y]
    | _, _ => []
  | "move_relative" =>
    match r.x_position, r.y_position with
    | some x, some y => [MouseOp.moveRel x y]
    | _, _ => []
  | "click" =>
    (match r.x_position, r.y_position with
     | some x, some y => [MouseOp.moveTo x y]
     | _, _ => []) ++ [MouseOp.click (selectButton r.button)]
  | "double_click" =>
    (match r.x_position, r.y_position with
     | some x, some y => [MouseOp.moveTo x y]
     | _, _ => []) ++
    [MouseOp.click (selectButton r.button), MouseOp.sleep 10,
     MouseOp.click (selectButton r.button)]
  | "right_click" =>
    (match r.x_position, r.y_position with
     | some x, some y => [MouseOp.moveTo x y]
     | _, _ => []) ++ [MouseOp.click MButton.right]
  | "drag" =>
    match r.x_position, r.y_position with
    | some x, some y => [MouseOp.moveTo x y, MouseOp.press MButton.left]
    | _, _ => []
  | "release" =>
    (match r.x_position, r.y_position with
     | some x, some y => [MouseOp.moveTo x y]
     | _, _ => []) ++ [MouseOp.release MButton.left]
  | "scroll" =>
    [MouseOp.scroll (wrapI32 (scrollDir r.modifiers * wrapI32 (n : Int)))]
  | "wait" => []
  | _ => []

/-- The sleep performed before dispatch when `delay_ms` is present
(src/main.rs lines 45-47). -/
def delayOps (r : MouseAction) : List MouseOp :=
  match r.delay_ms with
  | some d => [MouseOp.sleep d]
  | none => []

/-- Full processing of one decoded row (src/main.rs lines 44-142):
the optional delay, then the action body executed
`repeat_count.unwrap_or(1)` times. -/
def execRecord (r : MouseAction) : List MouseOp :=
  delayOps r ++
    (List.replicate (r.repeat_count.getD 1) (actionBody r (r.repeat_count.getD 1))).flatten

/-- The row loop of src/main.rs lines 40-143 over the sequence of per-row
decode results: each `Ok` row is dispatched; the first `Err` aborts the
run immediately via the `?` operator, yielding the terminal error. -/
def runRows : List (Except String MouseAction) → List MouseOp × Option String
  | [] => ([], none)
  | Except.error e :: _ => ([], some e)
  | Except.ok r :: rest =>
    (execRecord r ++ (runRows rest).1, (runRows rest).2)

/-- Decimal digit accumulation over a character list: `none` as soon as a
non-digit appears, else the accumulated value. -/
def natFromChars (cs : List Char) : Option Nat :=
  cs.foldl (fun acc c =>
    match acc with
    | none => none
    | some n =>
      if 48 ≤ c.toNat then
        if c.toNat ≤ 57 then some (n * 10 + (c.toNat - 48)) else none
      else none) (some 0)

/-- Decimal unsigned-integer decoding of a nonempty all-digit string. -/
def parseNatStr (s : String) : Option Nat :=
  match s.data with
  | [] => none
  | _ => natFromChars s.data

/-- Decimal signed-integer decoding: an optional leading minus sign followed
by a nonempty digit string. -/
def parseIntStr (s : String) : Option Int :=
  match s.data with
  | Char.ofNat 45 :: rest =>
    match rest with
    | [] => none
    | _ => (natFromChars rest).map (fun n => -(n : Int))
  | _ => (parseNatStr s).map (fun n => (n : Int))

/-- Modelled from the spec: serde-based decoding of one CSV row into
`MouseAction` is performed by the `csv`/`serde` libraries, which are not
part of src/.  Per the spec, a field decodes against its declared type,
an empty optional field decodes to absent, and a value that cannot be
decoded (e.g. a non-integer in a numeric column) is a structured error.
Decoding of one optional unsigned-integer field. -/
def decodeOptNat (s : String) : Except String (Option Nat) :=
  if s = "" then Except.ok none
  else
    match parseNatStr s with
    | some n => Except.ok (some n)
    | none => Except.error ("invalid unsigned integer: " ++ s)

/-- Modelled from the spec: decoding of one optional signed-integer field
(see `decodeOptNat`). -/
def decodeOptInt (s : String) : Except String (Option Int) :=
  if s = "" then Except.ok none
  else
    match parseIntStr s with
    | some n => Except.ok (some n)
    | none => Except.error ("invalid integer: " ++ s)

/-- Modelled from the spec: an empty optional string field decodes to
absent, not to the empty string. -/
def decodeOptStr (s : String) : Option String :=
  if s = "" then none else some s

/-- Modelled from the spec: decoding of one CSV row with columns exactly
`action,x_position,y_position,delay_ms,button,modifiers,repeat_count`
into a `MouseAction`, failing if a field cannot be decoded into its
declared type. -/
def decodeRow (fields : List String) : Except String MouseAction :=
  match fields with
  | [a, xs, ys, ds, bs, ms, rs] => do
    let x ← decodeOptInt xs
    let y ← decodeOptInt ys
    let d ← decodeOptNat ds
    let rc ← decodeOptNat rs
    Except.ok
      { action := a, x_position := x, y_position := y, delay_ms := d,
        button := decodeOptStr bs, modifiers := decodeOptStr ms,
        repeat_count := rc }
  | _ => Except.error "wrong number of fields"

/-- A file system as an association list from path strings to contents.
Paths are compared syntactically, as the probing code in
`determine_csv_path` does. -/
def FS := List (String × String)

/-- `Path::new(p).exists()` over the association-list file system. -/
def fsContains (fs : FS) (p : String) : Bool :=
  (List.lookup p fs).isSome

/-- `std::fs::write` over the association-list file system. -/
def fsWrite (fs : FS) (p c : String) : FS :=
  (p, c) :: fs

/-- The sample dataset written to the default file when it is absent
(src/main.rs lines 169-179). -/
def defaultCsvData : String :=
  "action,x_position,y_position,delay_ms,button,modifiers,repeat_count\n" ++
  "move,100,200,500,,,\n" ++
  "click,150,300,200,left,,1\n" ++
  "double_click,150,300,150,left,,2\n" ++
  "right_click,400,500,300,right,,1\n" ++
  "drag,200,300,100,left,,\n" ++
  "release,400,500,50,,,\n" ++
  "move,500,600,300,,,\n" ++
  "scroll,500,600,200,,down,5\n" ++
  "wait,,,2000,,,\n" ++
  "move_relative,50,-30,300,,,"

/-- The ordered candidate locations probed by `determine_csv_path`
(src/main.rs lines 186-191). -/
def candidatePaths : List String :=
  ["mouse_actions.csv", "./mouse_actions.csv", "../mouse_actions.csv",
   "data/mouse_actions.csv"]

/-- First existing path from an ordered candidate list
(src/main.rs lines 193-197). -/
def firstExisting (fs : FS) : List String → Option String
  | [] => none
  | p :: rest => if fsContains fs p then some p else firstExisting fs rest

/-- Default resolution of `determine_csv_path` (src/main.rs lines 163-200):
create `mouse_actions.csv` with the sample data if absent, then return the
first existing candidate path, falling back to the default name.
Returns the resolved path and the resulting file system. -/
def resolveDefault (fs : FS) : String × FS :=
  let fs' :=
    if fsContains fs "mouse_actions.csv" then fs
    else fsWrite fs "mouse_actions.csv" defaultCsvData
  match firstExisting fs' candidatePaths with
  | some p => (p, fs')
  | none => ("mouse_actions.csv", fs')

/-- `determine_csv_path` (src/main.rs lines 150-201) over the argument
vector (`args[0]` is the program name) and the file system.  Returns the
resolved path, the resulting file system, and whether the
file-not-found warning was printed. -/
def determine_csv_path (args : List String) (fs : FS) :
    String × FS × Bool :=
  match args with
  | _ :: p :: _ =>
    if fsContains fs p then (p, fs, false)
    else
      let (q, fs') := resolveDefault fs
      (q, fs', true)
  | _ =>
    let (q, fs') := resolveDefault fs
    (q, fs', false)

/-! ## Helper lemmas -/

lemma flatten_replicate_nil {α : Type} (n : Nat) :
    (List.replicate n ([] : List α)).flatten = [] := by
  induction n with
  | zero => rfl
  | succ k ih => simp [List.replicate, ih]

lemma flatten_replicate_single {α : Type} (n : Nat) (a : α) :
    (List.replicate n [a]).flatten = List.replicate n a := by
  induction n with
  | zero => rfl
  | succ k ih => simp [List.replicate, ih]

lemma wrapI32_eq_self (z : Int) (h1 : -2147483648 ≤ z)
    (h2 : z < 2147483648) : wrapI32 z = z := by
  unfold wrapI32
  omega

lemma scrollDir_cases (m : Option String) :
    scrollDir m = -1 ∨ scrollDir m = 1 := by
  unfold scrollDir
  split
  · exact Or.inl rfl
  · exact Or.inr rfl

lemma resolveDefault_keeps (fs : FS)
    (h : fsContains fs "mouse_actions.csv" = true) :
    resolveDefault fs = ("mouse_actions.csv", fs) := by
  simp [resolveDefault, h, firstExisting, candidatePaths]

lemma resolveDefault_creates (fs : FS)
    (h : fsContains fs "mouse_actions.csv" = false) :
    resolveDefault fs =
      ("mouse_actions.csv", ("mouse_actions.csv", defaultCsvData) :: fs) := by
  simp only [resolveDefault, h, Bool.false_eq_true, if_false]
  simp [firstExisting, candidatePaths, fsContains, fsWrite, List.lookup]

/-! ## Claim C1 -/

/-- Claim C1, counterexample: the claim states that for a `scroll` record the
action body executes exactly once, so that with `modifiers = "down"` and
`repeat_count = 5` a single scroll of magnitude `-5` is issued.  In the code
the `scroll` arm sits inside the repeat loop, so this record issues five
scrolls of `-5`, not one. -/
theorem scroll_not_single_issue :
    execRecord { action := "scroll", x_position := some 500, y_position := some 600,
                 delay_ms := none, button := none, modifiers := some "down",
                 repeat_count := some 5 } =
      List.replicate 5 (MouseOp.scroll (-5)) ∧
    execRecord { action := "scroll", x_position := some 500, y_position := some 600,
                 delay_ms := none, button := none, modifiers := some "down",
                 repeat_count := some 5 } ≠ [MouseOp.scroll (-5)] := by
  constructor <;> decide

/-- Claim C1 (amended): for a `scroll` record the action body executes
`repeat_count` times (default 1) like every other action, each execution
issuing one scroll of magnitude `direction * (repeat_count as i32)` under
wrapping 32-bit arithmetic, where the direction is `-1` exactly when
`modifiers = "down"` and `+1` otherwise; for every `repeat_count` below
`2^31` the magnitude is exactly `direction * repeat_count`. -/
theorem scroll_body_repeats (r : MouseAction) (h : r.action = "scroll") :
    execRecord r =
      delayOps r ++
        List.replicate (r.repeat_count.getD 1)
          (MouseOp.scroll
            (wrapI32 (scrollDir r.modifiers *
              wrapI32 (r.repeat_count.getD 1 : Int)))) ∧
    (r.modifiers = some "down" → scrollDir r.modifiers = -1) ∧
    (r.modifiers ≠ some "down" → scrollDir r.modifiers = 1) ∧
    ((r.repeat_count.getD 1 : Int) < 2147483648 →
      wrapI32 (scrollDir r.modifiers * wrapI32 (r.repeat_count.getD 1 : Int)) =
        scrollDir r.modifiers * (r.repeat_count.getD 1 : Int)) := by
  refine ⟨?_, ?_, ?_, ?_⟩
  · have hb : ∀ n, actionBody r n =
        [MouseOp.scroll (wrapI32 (scrollDir r.modifiers * wrapI32 (n : Int)))] := by
      intro n; simp [actionBody, h]
    simp only [execRecord, hb, flatten_replicate_single]
  · intro hm; rw [hm]; rfl
  · intro hm
    unfold scrollDir
    split
    · simp_all
    · rfl
  · intro hn
    have h0 : (0 : Int) ≤ (r.repeat_count.getD 1 : Int) := Int.natCast_nonneg _
    rw [wrapI32_eq_self (r.repeat_count.getD 1 : Int) (by omega) hn]
    rcases scrollDir_cases r.modifiers with hsd | hsd <;> rw [hsd] <;>
      rw [wrapI32_eq_self] <;> omega

/-- Claim C1 witness: the sample `scroll` record with `modifiers = "down"`,
`repeat_count = 5`, and a 200 ms delay issues five scrolls of `-5`. -/
theorem scroll_body_repeats_witness :
    execRecord { action := "scroll", x_position := some 500, y_position := some 600,
                 delay_ms := some 200, button := none, modifiers := some "down",
                 repeat_count := some 5 } =
      MouseOp.sleep 200 :: List.replicate 5 (MouseOp.scroll (-5)) := by
  have h := (scroll_body_repeats
    { action := "scroll", x_position := some 500, y_position := some 600,
      delay_ms := some 200, button := none, modifiers := some "down",
      repeat_count := some 5 } rfl).1
  rw [h]; decide

/-! ## Claim C2 -/

/-- Claim C2, counterexample: the claim states that every `drag` record
presses (without releasing) the left button.  In the code the press sits
inside the coordinate check, so a `drag` record lacking a coordinate presses
nothing at all. -/
theorem drag_without_coords_no_press :
    MouseOp.press MButton.left ∉
      execRecord { action := "drag", x_position := some 200, y_position := none,
                   delay_ms := none, button := some "left", modifiers := none,
                   repeat_count := none } := by
  decide

/-- Claim C2 (amended): a `drag` record moves to `(x, y)` and then presses,
without releasing, the left button only when both coordinates are present;
when either coordinate is absent it issues no operation at all.  No
execution of a `drag` body ever releases a button, so a successful press is
left held for a subsequent record to release. -/
theorem drag_dispatch_spec (r : MouseAction) (n : Nat) (h : r.action = "drag") :
    (∀ x y, r.x_position = some x → r.y_position = some y →
      actionBody r n = [MouseOp.moveTo x y, MouseOp.press MButton.left]) ∧
    (∀ b, MouseOp.release b ∉ actionBody r n) ∧
    (¬ (r.x_position.isSome ∧ r.y_position.isSome) → actionBody r n = []) := by
  refine ⟨?_, ?_, ?_⟩
  · intro x y hx hy
    simp [actionBody, h, hx, hy]
  · intro b
    cases hx : r.x_position <;> cases hy : r.y_position <;>
      simp [actionBody, h, hx, hy]
  · intro hxy
    cases hx : r.x_position <;> cases hy : r.y_position <;>
      simp_all [actionBody, h]

/-- Claim C2 witness: a `drag` record with both coordinates present moves
there and presses the left button without releasing it. -/
theorem drag_dispatch_spec_witness :
    actionBody { action := "drag", x_position := some 200, y_position := some 300,
                 delay_ms := some 100, button := some "left", modifiers := none,
                 repeat_count := none } 1 =
      [MouseOp.moveTo 200 300, MouseOp.press MButton.left] :=
  (drag_dispatch_spec
    { action := "drag", x_position := some 200, y_position := some 300,
      delay_ms := some 100, button := some "left", modifiers := none,
      repeat_count := none } 1 rfl).1 200 300 rfl rfl

/-! ## Claim C3 -/

/-- Claim C3: for a record whose action is not `scroll`, omitting
`repeat_count` dispatches exactly the same operations as
`repeat_count = 1`. -/
theorem repeat_absent_eq_one (r : MouseAction) (h : r.action ≠ "scroll") :
    execRecord { r with repeat_count := none } =
    execRecord { r with repeat_count := some 1 } := by
  cases r
  rfl

/-- Claim C3 witness: a `click` record with `repeat_count` omitted equals the
same record with `repeat_count = 1`. -/
theorem repeat_absent_eq_one_witness :
    execRecord { action := "click", x_position := some 150, y_position := some 300,
                 delay_ms := none, button := none, modifiers := none,
                 repeat_count := none } =
    execRecord { action := "click", x_position := some 150, y_position := some 300,
                 delay_ms := none, button := none, modifiers := none,
                 repeat_count := some 1 } :=
  repeat_absent_eq_one
    { action := "click", x_position := some 150, y_position := some 300,
      delay_ms := none, button := none, modifiers := none,
      repeat_count := none } (by decide)

/-! ## Claim C4 -/

/-- Claim C4: if a row fails to decode, the run aborts immediately with that
error as the terminal result: the dispatched operations are exactly those of
the preceding rows and do not depend on any row after the failing one. -/
theorem row_error_aborts_run (rows₁ rows₂ : List (Except String MouseAction))
    (e : String) (h : ∀ r ∈ rows₁, ∃ a, r = Except.ok a) :
    runRows (rows₁ ++ Except.error e :: rows₂) =
      runRows (rows₁ ++ [Except.error e]) ∧
    (runRows (rows₁ ++ Except.error e :: rows₂)).2 = some e := by
  induction rows₁ with
  | nil => exact ⟨rfl, rfl⟩
  | cons r t ih =>
    obtain ⟨a, rfl⟩ := h r (List.mem_cons_self r t)
    have ih' := ih (fun q hq => h q (List.mem_cons_of_mem _ hq))
    constructor
    · simp only [List.cons_append, runRows, List.append_eq, ih'.1]
    · simp only [List.cons_append, runRows, List.append_eq, ih'.2]

/-- Claim C4 witness: with a decodable row before and after it, a failing
row aborts the run after the first row's operations, with the error as the
terminal result. -/
theorem row_error_aborts_run_witness :
    runRows ([Except.ok { action := "move", x_position := some 1,
                          y_position := some 2, delay_ms := none, button := none,
                          modifiers := none, repeat_count := none }] ++
             Except.error "invalid integer: abc" ::
             [Except.ok { action := "click", x_position := some 150,
                          y_position := some 300, delay_ms := none, button := none,
                          modifiers := none, repeat_count := some 1 }]) =
      runRows ([Except.ok { action := "move", x_position := some 1,
                            y_position := some 2, delay_ms := none, button := none,
                            modifiers := none, repeat_count := none }] ++
               [Except.error "invalid integer: abc"]) ∧
    (runRows ([Except.ok { action := "move", x_position := some 1,
                           y_position := some 2, delay_ms := none, button := none,
                           modifiers := none, repeat_count := none }] ++
              Except.error "invalid integer: abc" ::
              [Except.ok { action := "click", x_position := some 150,
                           y_position := some 300, delay_ms := none, button := none,
                           modifiers := none, repeat_count := some 1 }])).2 =
      some "invalid integer: abc" :=
  row_error_aborts_run _ _ _ (by
    intro r hr
    simp only [List.mem_singleton] at hr
    exact ⟨_, hr⟩)

/-- The fixed action vocabulary of the dispatch `match`
(src/main.rs lines 54-137). -/
def knownActions : List String :=
  ["move", "move_relative", "click", "double_click", "right_click", "drag",
   "release", "scroll", "wait"]

/-! ## Claim C5 -/

/-- Claim C5: a row whose action string is outside the fixed vocabulary
issues no pointer operation (only its optional delay) and does not abort the
run: the following rows are processed exactly as before. -/
theorem unknown_action_skipped (r : MouseAction)
    (rest : List (Except String MouseAction)) (h : r.action ∉ knownActions) :
    execRecord r = delayOps r ∧
    runRows (Except.ok r :: rest) =
      (delayOps r ++ (runRows rest).1, (runRows rest).2) := by
  have hb : ∀ n, actionBody r n = [] := by
    intro n
    unfold actionBody
    split <;> simp_all [knownActions]
  have he : execRecord r = delayOps r := by
    simp [execRecord, hb, flatten_replicate_nil]
  exact ⟨he, by simp only [runRows, he]⟩

/-- Claim C5 witness: a `"teleport"` row issues only its delay and leaves the
processing of the remaining rows unchanged. -/
theorem unknown_action_skipped_witness :
    execRecord { action := "teleport", x_position := some 1, y_position := some 2,
                 delay_ms := some 7, button := none, modifiers := none,
                 repeat_count := some 3 } =
      delayOps { action := "teleport", x_position := some 1, y_position := some 2,
                 delay_ms := some 7, button := none, modifiers := none,
                 repeat_count := some 3 } ∧
    runRows (Except.ok { action := "teleport", x_position := some 1,
                         y_position := some 2, delay_ms := some 7, button := none,
                         modifiers := none, repeat_count := some 3 } ::
             [Except.error "later"]) =
      (delayOps { action := "teleport", x_position := some 1, y_position := some 2,
                  delay_ms := some 7, button := none, modifiers := none,
                  repeat_count := some 3 } ++
        (runRows [Except.error "later"]).1,
       (runRows [Except.error "later"]).2) :=
  unknown_action_skipped
    { action := "teleport", x_position := some 1, y_position := some 2,
      delay_ms := some 7, button := none, modifiers := none,
      repeat_count := some 3 } [Except.error "later"] (by decide)

/-! ## Claim C6 -/

/-- Claim C6: when the command-line argument names a nonexistent file, the
resolver warns and falls back to default resolution: it returns a path that
exists in the resulting file system, and if the default file was absent it
is created with the sample content. -/
theorem missing_arg_falls_back (a0 p : String) (rest : List String) (fs : FS)
    (h : fsContains fs p = false) :
    (determine_csv_path (a0 :: p :: rest) fs).2.2 = true ∧
    fsContains (determine_csv_path (a0 :: p :: rest) fs).2.1
      (determine_csv_path (a0 :: p :: rest) fs).1 = true ∧
    (fsContains fs "mouse_actions.csv" = false →
      List.lookup "mouse_actions.csv"
        (determine_csv_path (a0 :: p :: rest) fs).2.1 = some defaultCsvData) := by
  cases hc : fsContains fs "mouse_actions.csv" with
  | true =>
    have hr := resolveDefault_keeps fs hc
    simp [determine_csv_path, h, hr, hc]
  | false =>
    have hr := resolveDefault_creates fs hc
    have hgoal : determine_csv_path (a0 :: p :: rest) fs =
        ("mouse_actions.csv", ("mouse_actions.csv", defaultCsvData) :: fs, true) := by
      simp [determine_csv_path, h, hr]
    rw [hgoal]
    refine ⟨rfl, ?_, fun _ => ?_⟩
    · simp [fsContains, List.lookup]
    · simp [List.lookup]

/-- Claim C6 witness: with an empty file system and an argument naming a
missing file, the resolver warns, creates the default file with the sample
content, and returns a path that exists. -/
theorem missing_arg_falls_back_witness :
    (determine_csv_path ["prog", "missing.csv"] []).2.2 = true ∧
    fsContains (determine_csv_path ["prog", "missing.csv"] []).2.1
      (determine_csv_path ["prog", "missing.csv"] []).1 = true ∧
    List.lookup "mouse_actions.csv"
      (determine_csv_path ["prog", "missing.csv"] []).2.1 =
        some defaultCsvData := by
  have h := missing_arg_falls_back "prog" "missing.csv" [] [] (by decide)
  exact ⟨h.1, h.2.1, h.2.2 (by decide)⟩

/-! ## Claim C7 -/

/-- Claim C7: with no argument and the default file already present, path
resolution returns the default path and leaves the file system, hence the
file content, completely unchanged, with no warning. -/
theorem existing_default_unchanged (args : List String) (fs : FS)
    (h1 : args.length ≤ 1) (h2 : fsContains fs "mouse_actions.csv" = true) :
    determine_csv_path args fs = ("mouse_actions.csv", fs, false) := by
  have hr := resolveDefault_keeps fs h2
  cases args with
  | nil => simp [determine_csv_path, hr]
  | cons a t =>
    cases t with
    | nil => simp [determine_csv_path, hr]
    | cons b t2 =>
      simp only [List.length_cons] at h1
      omega

/-- Claim C7 witness: with one argument-less invocation and a default file
holding arbitrary content, resolution returns it and changes nothing. -/
theorem existing_default_unchanged_witness :
    determine_csv_path ["prog"] [("mouse_actions.csv", "hello")] =
      ("mouse_actions.csv", [("mouse_actions.csv", "hello")], false) :=
  existing_default_unchanged ["prog"] [("mouse_actions.csv", "hello")]
    (by decide) (by decide)

/-! ## Claim C8 -/

/-- Claim C8: a `click` record at `(150, 300)` with no button moves there
first and then issues exactly one left-button press-and-release. -/
theorem click_default_left (r : MouseAction) (h1 : r.action = "click")
    (h2 : r.x_position = some 150) (h3 : r.y_position = some 300)
    (h4 : r.button = none) (h5 : r.repeat_count = none) :
    execRecord r =
      delayOps r ++ [MouseOp.moveTo 150 300, MouseOp.click MButton.left] := by
  obtain ⟨a, x, y, d, b, m, rc⟩ := r
  dsimp only at h1 h2 h3 h4 h5
  subst h1 h2 h3 h4 h5
  rfl

/-- Claim C8 witness: the sample `click` record with a 200 ms delay moves to
`(150, 300)` and left-clicks once. -/
theorem click_default_left_witness :
    execRecord { action := "click", x_position := some 150, y_position := some 300,
                 delay_ms := some 200, button := none, modifiers := none,
                 repeat_count := none } =
      delayOps { action := "click", x_position := some 150, y_position := some 300,
                 delay_ms := some 200, button := none, modifiers := none,
                 repeat_count := none } ++
        [MouseOp.moveTo 150 300, MouseOp.click MButton.left] :=
  click_default_left
    { action := "click", x_position := some 150, y_position := some 300,
      delay_ms := some 200, button := none, modifiers := none,
      repeat_count := none } rfl rfl rfl rfl rfl

/-! ## Claim C9 -/

/-- Claim C9: for the coordinate-using actions, when the two coordinates are
not both present no pointer move of either kind is issued, and a `drag`
issues nothing at all. -/
theorem move_requires_both_coords (r : MouseAction) (n : Nat)
    (h : r.action ∈ ["move", "move_relative", "click", "double_click",
                     "right_click", "drag", "release"])
    (hxy : ¬ (r.x_position.isSome ∧ r.y_position.isSome)) :
    (∀ x y, MouseOp.moveTo x y ∉ actionBody r n) ∧
    (∀ x y, MouseOp.moveRel x y ∉ actionBody r n) ∧
    (r.action = "drag" → actionBody r n = []) := by
  simp only [List.mem_cons, List.not_mem_nil, or_false] at h
  rcases h with h | h | h | h | h | h | h <;>
    cases hx : r.x_position <;>
      cases hy : r.y_position <;>
        simp_all [actionBody]

/-- Claim C9 witness: a `drag` record with only an x coordinate issues no
move and no operation at all. -/
theorem move_requires_both_coords_witness :
    MouseOp.moveTo 100 200 ∉
      actionBody { action := "drag", x_position := some 200, y_position := none,
                   delay_ms := none, button := none, modifiers := none,
                   repeat_count := none } 1 ∧
    actionBody { action := "drag", x_position := some 200, y_position := none,
                 delay_ms := none, button := none, modifiers := none,
                 repeat_count := none } 1 = [] := by
  have h := move_requires_both_coords
    { action := "drag", x_position := some 200, y_position := none,
      delay_ms := none, button := none, modifiers := none,
      repeat_count := none } 1 (by decide) (by decide)
  exact ⟨h.1 100 200, h.2.2 rfl⟩

/-! ## Claim C10 -/

/-- Claim C10: `repeat_count = 0` decodes successfully (zero is accepted by
the unsigned field), and a record carrying it executes its body zero times:
only the optional delay is performed, for every action including
`scroll`. -/
theorem repeat_zero_no_ops :
    (decodeRow ["scroll", "", "", "250", "", "down", "0"] =
      Except.ok { action := "scroll", x_position := none, y_position := none,
                  delay_ms := some 250, button := none, modifiers := some "down",
                  repeat_count := some 0 }) ∧
    (∀ r : MouseAction, r.repeat_count = some 0 → execRecord r = delayOps r) := by
  constructor
  · rfl
  · intro r h
    simp [execRecord, h]

/-- Claim C10 witness: the decoded `scroll` record with `repeat_count = 0`
performs only its 250 ms delay and issues no pointer operation. -/
theorem repeat_zero_no_ops_witness :
    execRecord { action := "scroll", x_position := none, y_position := none,
                 delay_ms := some 250, button := none, modifiers := some "down",
                 repeat_count := some 0 } =
      delayOps { action := "scroll", x_position := none, y_position := none,
                 delay_ms := some 250, button := none, modifiers := some "down",
                 repeat_count := some 0 } :=
  repeat_zero_no_ops.2
    { action := "scroll", x_position := none, y_position := none,
      delay_ms := some 250, button := none, modifiers := some "down",
      repeat_count := some 0 } rfl
